import Mathlib

/-!
Shallow embedding of the sports-tracker change-detection-and-event-recording
pipeline.

Sources embedded:
* `src/domain/value-objects/GameStatus.ts`, `Score.ts`, `src/domain/entities/Game.ts`
* `src/infrastructure/adapters/SoccerAdapter.ts`, `TennisAdapter.ts`, `HockeyAdapter.ts`
* `src/infrastructure/persistence/EventStore.ts`, `GameRepository.ts`
* `src/application/services/GameSyncService.ts`

Modelling conventions:
* JavaScript numbers used for scores are `Int` (the repository validates
  non-negativity in `Score.create`, which is embedded as a fallible
  constructor); event versions are `Nat`.
* Timestamps (`timestamp`, `createdAt`, `lastUpdated`) and generated UUIDs
  (`eventId`) are not modelled: no claim depends on their values.  The
  observable fact that `GameRepository.save` stamps `lastUpdated` on every
  write is modelled by the `snapshotWrites` counter on `SyncState`, and the
  observable fact that `EventStore.saveEvent` performs a store round-trip per
  invocation by the `appendAttempts` counter.
* A thrown JavaScript exception is an `Except Unit` error.  The
  `try { } catch { }` blocks of the source become `match` on the `Except`
  value at exactly the syntactic position of the corresponding `catch`.
* The MongoDB unique index on `(aggregateId, version)` (EventSchema.ts) can
  reject an insert when a concurrent writer claimed the computed version in
  the window between `getCurrentVersion` and `save`.  This race is modelled
  by a `conflicts` parameter: the set of `(aggregateId, version)` slots
  claimed by concurrent writers and not visible to our own reads.
  Sequential (single-writer) execution is `conflicts = []`.
-/

/-- GameStatusEnum from `GameStatus.ts`: the three lifecycle states. -/
inductive GameStatusEnum
  | SCHEDULED
  | LIVE
  | FINISHED
deriving DecidableEq, Repr

/-- Score value object (`Score.ts`): two team scores. -/
structure Score where
  team1Score : Int
  team2Score : Int
deriving DecidableEq, Repr

/-- Score.create from `Score.ts`: throws when either score is negative. -/
def Score.create (team1Score team2Score : Int) : Except Unit Score :=
  if team1Score < 0 ∨ team2Score < 0 then Except.error ()
  else Except.ok ⟨team1Score, team2Score⟩

/-- Participant from `Game.ts`. -/
structure Participant where
  name : String
  side : String
deriving DecidableEq, Repr

/-- Game entity from `Game.ts` (current-state fields used by the sync
pipeline; the embedded per-game `events` array of raw upstream events is not
modelled, no claim touches it). -/
structure Game where
  gameId : String
  sport : String
  participants : List Participant
  score : Score
  status : GameStatusEnum
  currentTime : String
deriving DecidableEq, Repr

/-- Game constructor validation from `Game.ts`: throws when the gameId is
empty/blank (the source tests falsiness and trim-emptiness of the id,
which is true exactly when every character is whitespace, including the
empty id) or when there are not exactly two participants. -/
def Game.make (gameId sport : String) (participants : List Participant)
    (score : Score) (status : GameStatusEnum) (currentTime : String) :
    Except Unit Game :=
  if gameId.toList.all (fun c => c.isWhitespace) then Except.error ()
  else if participants.length ≠ 2 then Except.error ()
  else Except.ok ⟨gameId, sport, participants, score, status, currentTime⟩

/-- Game.getTeam1Name: `participants[0].name`. -/
def Game.getTeam1Name (g : Game) : String :=
  (g.participants.headD ⟨"", ""⟩).name

/-- Game.getTeam2Name: `participants[1].name`. -/
def Game.getTeam2Name (g : Game) : String :=
  ((g.participants.drop 1).headD ⟨"", ""⟩).name

/-- Models JavaScript `array.map(cb)` where the callback may throw: the
first thrown error aborts the whole map. -/
def mapOrThrow (f : α → Except Unit β) : List α → Except Unit (List β)
  | [] => Except.ok []
  | a :: as =>
    match f a with
    | Except.error e => Except.error e
    | Except.ok b =>
      match mapOrThrow f as with
      | Except.error e => Except.error e
      | Except.ok bs => Except.ok (b :: bs)

/-- Raw soccer payload shape (`SoccerAdapter.ts`): one element of
`response.data.matches`. -/
structure SoccerMatch where
  matchId : String
  homeTeam : String
  awayTeam : String
  scoreHome : Int
  scoreAway : Int
  minute : Int
  status : String
deriving DecidableEq, Repr

/-- SoccerAdapter.mapStatus: unrecognized strings default to SCHEDULED. -/
def SoccerAdapter.mapStatus (soccerStatus : String) : GameStatusEnum :=
  match soccerStatus with
  | "LIVE" => GameStatusEnum.LIVE
  | "SCHEDULED" => GameStatusEnum.SCHEDULED
  | "FINISHED" => GameStatusEnum.FINISHED
  | _ => GameStatusEnum.SCHEDULED

/-- SoccerAdapter.convertToGame: `Score.create` and the `Game` constructor
may throw. -/
def SoccerAdapter.convertToGame (m : SoccerMatch) : Except Unit Game :=
  match Score.create m.scoreHome m.scoreAway with
  | Except.error e => Except.error e
  | Except.ok score =>
    Game.make m.matchId "SOCCER"
      [⟨m.homeTeam, "TEAM1"⟩, ⟨m.awayTeam, "TEAM2"⟩]
      score (SoccerAdapter.mapStatus m.status) (toString m.minute ++ " min")

/-- SoccerAdapter.fetchGames: the whole body is inside `try`; any throw from
the HTTP call (an `Except.error` response) or from a per-game conversion is
caught and an empty list is returned. -/
def SoccerAdapter.fetchGames (response : Except Unit (List SoccerMatch)) :
    List Game :=
  match response with
  | Except.error _ => []
  | Except.ok ms =>
    match mapOrThrow SoccerAdapter.convertToGame ms with
    | Except.error _ => []
    | Except.ok gs => gs

/-- Raw hockey payload shape (`HockeyAdapter.ts`): one element of
`response.data.games`; the two-element `teams` array is modelled as two
fields. -/
structure HockeyGame where
  id : String
  team1 : String
  team2 : String
  scoreTeam1 : Int
  scoreTeam2 : Int
  period : Int
  status : String
deriving DecidableEq, Repr

/-- HockeyAdapter.mapStatus: FINAL maps to FINISHED; unrecognized strings
default to SCHEDULED. -/
def HockeyAdapter.mapStatus (hockeyStatus : String) : GameStatusEnum :=
  match hockeyStatus with
  | "LIVE" => GameStatusEnum.LIVE
  | "FINAL" => GameStatusEnum.FINISHED
  | "SCHEDULED" => GameStatusEnum.SCHEDULED
  | _ => GameStatusEnum.SCHEDULED

/-- HockeyAdapter.convertToGame. -/
def HockeyAdapter.convertToGame (hg : HockeyGame) : Except Unit Game :=
  match Score.create hg.scoreTeam1 hg.scoreTeam2 with
  | Except.error e => Except.error e
  | Except.ok score =>
    Game.make hg.id "HOCKEY"
      [⟨hg.team1, "TEAM1"⟩, ⟨hg.team2, "TEAM2"⟩]
      score (HockeyAdapter.mapStatus hg.status)
      ("Period " ++ toString hg.period)

/-- HockeyAdapter.fetchGames: any throw inside the `try` yields `[]`. -/
def HockeyAdapter.fetchGames (response : Except Unit (List HockeyGame)) :
    List Game :=
  match response with
  | Except.error _ => []
  | Except.ok hs =>
    match mapOrThrow HockeyAdapter.convertToGame hs with
    | Except.error _ => []
    | Except.ok gs => gs

/-- One set's games score in the raw tennis payload (`TennisAdapter.ts`). -/
structure SetScore where
  p1 : Int
  p2 : Int
deriving DecidableEq, Repr

/-- Raw tennis payload shape: one element of `response.data.games`. -/
structure TennisGame where
  gameId : String
  player1 : String
  player2 : String
  setScore : List SetScore
  status : String
deriving DecidableEq, Repr

/-- TennisAdapter.isSetComplete. -/
def TennisAdapter.isSetComplete (s : SetScore) : Bool :=
  if s.p1 ≥ 6 ∧ s.p1 - s.p2 ≥ 2 then true
  else if s.p2 ≥ 6 ∧ s.p2 - s.p1 ≥ 2 then true
  else if s.p1 = 7 ∧ s.p2 = 6 then true
  else if s.p2 = 7 ∧ s.p1 = 6 then true
  else if s.p1 ≥ 7 ∧ s.p1 - s.p2 ≥ 2 then true
  else if s.p2 ≥ 7 ∧ s.p2 - s.p1 ≥ 2 then true
  else false

/-- TennisAdapter.calculateSetsWon: counts completed sets won by each
player. -/
def TennisAdapter.calculateSetsWon (setScore : List SetScore) : Int × Int :=
  setScore.foldl
    (fun acc s =>
      if TennisAdapter.isSetComplete s then
        if s.p1 > s.p2 then (acc.1 + 1, acc.2)
        else if s.p2 > s.p1 then (acc.1, acc.2 + 1)
        else acc
      else acc)
    (0, 0)

/-- TennisAdapter.formatCurrentTime. -/
def TennisAdapter.formatCurrentTime (setScore : List SetScore) : String :=
  match setScore.getLast? with
  | none => "Starting"
  | some currentSet =>
    let setsWon := TennisAdapter.calculateSetsWon setScore
    let setNumber := setScore.length
    if TennisAdapter.isSetComplete currentSet then
      "Sets: " ++ toString setsWon.1 ++ "-" ++ toString setsWon.2
    else if setScore.length > 1 then
      "Sets: " ++ toString setsWon.1 ++ "-" ++ toString setsWon.2 ++
        ", Set " ++ toString setNumber ++ ": " ++
        toString currentSet.p1 ++ "-" ++ toString currentSet.p2
    else
      "Set " ++ toString setNumber ++ ": " ++
        toString currentSet.p1 ++ "-" ++ toString currentSet.p2

/-- TennisAdapter.mapStatus: IN_PROGRESS maps to LIVE, COMPLETED to
FINISHED; unrecognized strings default to SCHEDULED. -/
def TennisAdapter.mapStatus (tennisStatus : String) : GameStatusEnum :=
  match tennisStatus with
  | "IN_PROGRESS" => GameStatusEnum.LIVE
  | "COMPLETED" => GameStatusEnum.FINISHED
  | "SCHEDULED" => GameStatusEnum.SCHEDULED
  | _ => GameStatusEnum.SCHEDULED

/-- TennisAdapter.convertToGame. -/
def TennisAdapter.convertToGame (tg : TennisGame) : Except Unit Game :=
  let setsWon := TennisAdapter.calculateSetsWon tg.setScore
  match Score.create setsWon.1 setsWon.2 with
  | Except.error e => Except.error e
  | Except.ok score =>
    Game.make tg.gameId "TENNIS"
      [⟨tg.player1, "TEAM1"⟩, ⟨tg.player2, "TEAM2"⟩]
      score (TennisAdapter.mapStatus tg.status)
      (TennisAdapter.formatCurrentTime tg.setScore)

/-- TennisAdapter.fetchGames: any throw inside the `try` yields `[]`. -/
def TennisAdapter.fetchGames (response : Except Unit (List TennisGame)) :
    List Game :=
  match response with
  | Except.error _ => []
  | Except.ok ts =>
    match mapOrThrow TennisAdapter.convertToGame ts with
    | Except.error _ => []
    | Except.ok gs => gs

/-- Event payload variants as constructed by `GameSyncService` (one shape
per event kind written by the sync pipeline). -/
inductive EventPayload
  | gameCreated (sport team1 team2 : String) (status : GameStatusEnum)
  | gameStarted (sport status : String)
  | scoreUpdated (sport : String) (previous1 previous2 new1 new2 : Int)
  | statusChanged (sport : String) (previousStatus newStatus : GameStatusEnum)
  | timeUpdated (sport previousTime newTime : String)
deriving DecidableEq, Repr

/-- EventData from `EventStore.ts`: the caller-supplied part of an event. -/
structure EventData where
  eventType : String
  aggregateId : String
  payload : EventPayload
  sourceApi : String
deriving DecidableEq, Repr

/-- A persisted event document (`EventSchema.ts`), without the unmodelled
`eventId`/`timestamp`/`createdAt` fields. -/
structure StoredEvent where
  eventType : String
  aggregateId : String
  aggregateType : String
  version : Nat
  payload : EventPayload
  sourceApi : String
deriving DecidableEq, Repr

/-- EventStore.getCurrentVersion: the highest version among the events of
one aggregate, `0` when there are none (findOne sorted by version
descending). -/
def getCurrentVersion (log : List StoredEvent) (aggregateId : String) : Nat :=
  (log.filter (fun e => e.aggregateId = aggregateId)).foldl
    (fun m e => max m e.version) 0

/-- EventStore.saveEvent: computes `getCurrentVersion + 1` and inserts; the
unique index on `(aggregateId, version)` rejects the insert (a thrown
error) when a concurrent writer already claimed that slot. -/
def saveEvent (conflicts : List (String × Nat)) (log : List StoredEvent)
    (e : EventData) : Except Unit (List StoredEvent) :=
  let nextVersion := getCurrentVersion log e.aggregateId + 1
  if (e.aggregateId, nextVersion) ∈ conflicts then Except.error ()
  else
    Except.ok (log ++
      [{ eventType := e.eventType, aggregateId := e.aggregateId,
         aggregateType := "GAME", version := nextVersion,
         payload := e.payload, sourceApi := e.sourceApi }])

/-- EventStore.getEventsByGameId: all events of one aggregate sorted by
version ascending. -/
def getEventsByGameId (log : List StoredEvent) (aggregateId : String) :
    List StoredEvent :=
  List.insertionSort (fun a b => a.version ≤ b.version)
    (log.filter (fun e => e.aggregateId = aggregateId))

/-- EventStore.countEvents: number of events of one aggregate. -/
def countEvents (log : List StoredEvent) (aggregateId : String) : Nat :=
  (log.filter (fun e => e.aggregateId = aggregateId)).length

/-- A persisted game snapshot document (`GameSchema.ts`), without the
unmodelled timestamp fields. -/
structure GameDoc where
  gameId : String
  sport : String
  team1 : String
  team2 : String
  score1 : Int
  score2 : Int
  status : GameStatusEnum
  currentTime : String
  version : Nat
deriving DecidableEq, Repr

/-- The document written by GameRepository.save: every field is taken from
the Game being saved and `version` is hard-coded to `0` (the source's
`version: 0`; `GameRepository.updateVersion` exists but is never called by
the sync service). -/
def gameToDoc (g : Game) : GameDoc :=
  { gameId := g.gameId, sport := g.sport,
    team1 := g.getTeam1Name, team2 := g.getTeam2Name,
    score1 := g.score.team1Score, score2 := g.score.team2Score,
    status := g.status, currentTime := g.currentTime, version := 0 }

/-- GameRepository.save: `findOneAndUpdate` with `upsert: true` keyed on
`gameId` - full replace of the matching document, or insert when absent. -/
def repoSave (docs : List GameDoc) (g : Game) : List GameDoc :=
  if docs.any (fun d => d.gameId = g.gameId) then
    docs.map (fun d => if d.gameId = g.gameId then gameToDoc g else d)
  else docs ++ [gameToDoc g]

/-- GameRepository.findById. -/
def findById (docs : List GameDoc) (gameId : String) : Option GameDoc :=
  docs.find? (fun d => d.gameId = gameId)

/-- The mutable persistent state visible to one sync cycle, with two
observability counters: `appendAttempts` counts EventStore.saveEvent
invocations (each is a store round-trip), `snapshotWrites` counts
GameRepository.save invocations (each stamps `lastUpdated`). -/
structure SyncState where
  events : List StoredEvent
  games : List GameDoc
  appendAttempts : Nat
  snapshotWrites : Nat
deriving DecidableEq, Repr

/-- Initial empty stores. -/
def SyncState.empty : SyncState := ⟨[], [], 0, 0⟩

/-- One GameRepository.save call on the state. -/
def SyncState.saveGame (st : SyncState) (g : Game) : SyncState :=
  { st with games := repoSave st.games g,
            snapshotWrites := st.snapshotWrites + 1 }

/-- One EventStore.saveEvent call on the state; an error is a thrown
exception carrying the state reached so far (nothing was appended). -/
def trySaveEvent (conflicts : List (String × Nat)) (st : SyncState)
    (e : EventData) : Except SyncState SyncState :=
  match saveEvent conflicts st.events e with
  | Except.ok log =>
    Except.ok { st with events := log,
                        appendAttempts := st.appendAttempts + 1 }
  | Except.error _ =>
    Except.error { st with appendAttempts := st.appendAttempts + 1 }

/-- The `sourceApi` string built by GameSyncService:
`sportType.toLowerCase() + "-api"`. -/
def sourceApiOf (sportType : String) : String :=
  sportType.toLower ++ "-api"

/-- The GAME_CREATED event built in handleNewGame. -/
def gameCreatedEvent (g : Game) (sportType : String) : EventData :=
  { eventType := "GAME_CREATED", aggregateId := g.gameId,
    payload := EventPayload.gameCreated sportType g.getTeam1Name
      g.getTeam2Name g.status,
    sourceApi := sourceApiOf sportType }

/-- The GAME_STARTED event built in handleNewGame. -/
def gameStartedEvent (g : Game) (sportType : String) : EventData :=
  { eventType := "GAME_STARTED", aggregateId := g.gameId,
    payload := EventPayload.gameStarted sportType "LIVE",
    sourceApi := sourceApiOf sportType }

/-- The SCORE_UPDATED event built in handleNewGame (previous score 0-0). -/
def initialScoreEvent (g : Game) (sportType : String) : EventData :=
  { eventType := "SCORE_UPDATED", aggregateId := g.gameId,
    payload := EventPayload.scoreUpdated sportType 0 0
      g.score.team1Score g.score.team2Score,
    sourceApi := sourceApiOf sportType }

/-- The STATUS_CHANGED event built in handleExistingGame. -/
def statusChangedEvent (g : Game) (doc : GameDoc) (sportType : String) :
    EventData :=
  { eventType := "STATUS_CHANGED", aggregateId := g.gameId,
    payload := EventPayload.statusChanged sportType doc.status g.status,
    sourceApi := sourceApiOf sportType }

/-- The SCORE_UPDATED event built in handleExistingGame. -/
def scoreChangedEvent (g : Game) (doc : GameDoc) (sportType : String) :
    EventData :=
  { eventType := "SCORE_UPDATED", aggregateId := g.gameId,
    payload := EventPayload.scoreUpdated sportType doc.score1 doc.score2
      g.score.team1Score g.score.team2Score,
    sourceApi := sourceApiOf sportType }

/-- The TIME_UPDATED event built in handleExistingGame. -/
def timeChangedEvent (g : Game) (doc : GameDoc) (sportType : String) :
    EventData :=
  { eventType := "TIME_UPDATED", aggregateId := g.gameId,
    payload := EventPayload.timeUpdated sportType doc.currentTime
      g.currentTime,
    sourceApi := sourceApiOf sportType }

/-- GameSyncService.handleNewGame: GAME_CREATED always, GAME_STARTED when
the fetched status is LIVE, SCORE_UPDATED when either fetched score is
positive, then GameRepository.save.  A throw from any saveEvent aborts the
rest (the error carries the state reached so far). -/
def handleNewGame (conflicts : List (String × Nat)) (st : SyncState)
    (g : Game) (sportType : String) : Except SyncState SyncState :=
  match trySaveEvent conflicts st (gameCreatedEvent g sportType) with
  | Except.error s => Except.error s
  | Except.ok st1 =>
    match (if g.status = GameStatusEnum.LIVE then
             trySaveEvent conflicts st1 (gameStartedEvent g sportType)
           else Except.ok st1) with
    | Except.error s => Except.error s
    | Except.ok st2 =>
      match (if 0 < g.score.team1Score ∨ 0 < g.score.team2Score then
               trySaveEvent conflicts st2 (initialScoreEvent g sportType)
             else Except.ok st2) with
      | Except.error s => Except.error s
      | Except.ok st3 => Except.ok (st3.saveGame g)

/-- GameSyncService.handleExistingGame: one event per differing compared
field, in the fixed order STATUS_CHANGED, SCORE_UPDATED, TIME_UPDATED, then
GameRepository.save exactly when some compared field differed
(`hasChanges`).  A throw from any saveEvent aborts the rest. -/
def handleExistingGame (conflicts : List (String × Nat)) (st : SyncState)
    (newGame : Game) (existingGame : GameDoc) (sportType : String) :
    Except SyncState SyncState :=
  match (if newGame.status ≠ existingGame.status then
           trySaveEvent conflicts st
             (statusChangedEvent newGame existingGame sportType)
         else Except.ok st) with
  | Except.error s => Except.error s
  | Except.ok st1 =>
    match (if newGame.score.team1Score ≠ existingGame.score1 ∨
              newGame.score.team2Score ≠ existingGame.score2 then
             trySaveEvent conflicts st1
               (scoreChangedEvent newGame existingGame sportType)
           else Except.ok st1) with
    | Except.error s => Except.error s
    | Except.ok st2 =>
      match (if newGame.currentTime ≠ existingGame.currentTime then
               trySaveEvent conflicts st2
                 (timeChangedEvent newGame existingGame sportType)
             else Except.ok st2) with
      | Except.error s => Except.error s
      | Except.ok st3 =>
        if newGame.status ≠ existingGame.status ∨
           (newGame.score.team1Score ≠ existingGame.score1 ∨
            newGame.score.team2Score ≠ existingGame.score2) ∨
           newGame.currentTime ≠ existingGame.currentTime then
          Except.ok (st3.saveGame newGame)
        else Except.ok st3

/-- GameSyncService.processGame: snapshot lookup, dispatch to the
new/existing handler, and the per-game `catch` that logs and swallows any
error (the partial effects before the throw are kept). -/
def processGame (conflicts : List (String × Nat)) (st : SyncState)
    (game : Game) (sportType : String) : SyncState :=
  match findById st.games game.gameId with
  | none =>
    match handleNewGame conflicts st game sportType with
    | Except.ok s => s
    | Except.error s => s
  | some existingGame =>
    match handleExistingGame conflicts st game existingGame sportType with
    | Except.ok s => s
    | Except.error s => s

/-- One adapter as seen by one cycle: its sport tag and the outcome of its
`fetchGames()` call (an `Except.error` is a thrown fetch failure). -/
structure AdapterCycle where
  sportType : String
  fetched : Except Unit (List Game)

/-- GameSyncService.syncSport: on a fetch throw nothing is processed (the
error is re-thrown to syncAllSports); otherwise each fetched game is
processed in order (processGame never throws). -/
def syncSport (conflicts : List (String × Nat)) (st : SyncState)
    (adapter : AdapterCycle) : SyncState :=
  match adapter.fetched with
  | Except.error _ => st
  | Except.ok games =>
    games.foldl (fun s g => processGame conflicts s g adapter.sportType) st

/-- GameSyncService.syncAllSports: one cycle over all adapters; the
per-adapter `catch` makes a failing adapter leave the state unchanged while
the loop continues. -/
def syncAllSports (conflicts : List (String × Nat)) (st : SyncState)
    (adapters : List AdapterCycle) : SyncState :=
  adapters.foldl (fun s a => syncSport conflicts s a) st

/-- A sequence of sequentially executed sync cycles (each cycle is the list
of adapters with their fetch outcomes for that cycle). -/
def runCycles (conflicts : List (String × Nat)) (st : SyncState)
    (cycles : List (List AdapterCycle)) : SyncState :=
  cycles.foldl (fun s adapters => syncAllSports conflicts s adapters) st

/-- Versions of one aggregate's events, in append order (proof
scaffolding). -/
def versionsFor (log : List StoredEvent) (aggregateId : String) : List Nat :=
  (log.filter (fun e => e.aggregateId = aggregateId)).map (fun e => e.version)

/-- The gapless-versions invariant of the event log: for every aggregate
the versions in append order are exactly 1..N. -/
def EventLogInv (log : List StoredEvent) : Prop :=
  ∀ aggregateId, versionsFor log aggregateId =
    List.range' 1 (countEvents log aggregateId)

/-- The document inserted by a successful saveEvent on `log` (proof
scaffolding). -/
def storedOf (log : List StoredEvent) (e : EventData) : StoredEvent :=
  { eventType := e.eventType, aggregateId := e.aggregateId,
    aggregateType := "GAME",
    version := getCurrentVersion log e.aggregateId + 1,
    payload := e.payload, sourceApi := e.sourceApi }

/-- The exact stored events appended by handleNewGame when every append
succeeds, given `v` = current version of the aggregate before the call. -/
def newGameStoredEvents (v : Nat) (g : Game) (t : String) :
    List StoredEvent :=
  { eventType := "GAME_CREATED", aggregateId := g.gameId,
    aggregateType := "GAME", version := v + 1,
    payload := EventPayload.gameCreated t g.getTeam1Name g.getTeam2Name
      g.status,
    sourceApi := sourceApiOf t } ::
  ((if g.status = GameStatusEnum.LIVE then
      [{ eventType := "GAME_STARTED", aggregateId := g.gameId,
         aggregateType := "GAME", version := v + 2,
         payload := EventPayload.gameStarted t "LIVE",
         sourceApi := sourceApiOf t }]
    else []) ++
   (if 0 < g.score.team1Score ∨ 0 < g.score.team2Score then
      [{ eventType := "SCORE_UPDATED", aggregateId := g.gameId,
         aggregateType := "GAME",
         version := (if g.status = GameStatusEnum.LIVE then v + 3 else v + 2),
         payload := EventPayload.scoreUpdated t 0 0 g.score.team1Score
           g.score.team2Score,
         sourceApi := sourceApiOf t }]
    else []))

/-- The exact stored events appended by handleExistingGame when every
append succeeds, given `v` = current version of the aggregate before the
call. -/
def existingGameStoredEvents (v : Nat) (g : Game) (doc : GameDoc)
    (t : String) : List StoredEvent :=
  let e1 : List StoredEvent :=
    if g.status ≠ doc.status then
      [{ eventType := "STATUS_CHANGED", aggregateId := g.gameId,
         aggregateType := "GAME", version := v + 1,
         payload := EventPayload.statusChanged t doc.status g.status,
         sourceApi := sourceApiOf t }]
    else []
  let e2 : List StoredEvent :=
    if g.score.team1Score ≠ doc.score1 ∨ g.score.team2Score ≠ doc.score2 then
      [{ eventType := "SCORE_UPDATED", aggregateId := g.gameId,
         aggregateType := "GAME", version := v + e1.length + 1,
         payload := EventPayload.scoreUpdated t doc.score1 doc.score2
           g.score.team1Score g.score.team2Score,
         sourceApi := sourceApiOf t }]
    else []
  let e3 : List StoredEvent :=
    if g.currentTime ≠ doc.currentTime then
      [{ eventType := "TIME_UPDATED", aggregateId := g.gameId,
         aggregateType := "GAME", version := v + e1.length + e2.length + 1,
         payload := EventPayload.timeUpdated t doc.currentTime g.currentTime,
         sourceApi := sourceApiOf t }]
    else []
  e1 ++ e2 ++ e3

/-- Spec-side description of the new-entity bootstrap (transcribed from the
claim: ENTITY_CREATED first, ENTITY_ACTIVATED exactly when the fetched
state is ACTIVE, METRIC_UPDATED with previous 0-0 exactly when a fetched
metric is nonzero), as `(event kind, payload)` pairs. -/
def newGameSpec (g : Game) (t : String) : List (String × EventPayload) :=
  ("GAME_CREATED",
    EventPayload.gameCreated t g.getTeam1Name g.getTeam2Name g.status) ::
  ((if g.status = GameStatusEnum.LIVE then
      [("GAME_STARTED", EventPayload.gameStarted t "LIVE")]
    else []) ++
   (if 0 < g.score.team1Score ∨ 0 < g.score.team2Score then
      [("SCORE_UPDATED",
        EventPayload.scoreUpdated t 0 0 g.score.team1Score
          g.score.team2Score)]
    else []))

/-- Spec-side description of the per-field diff events of an existing
entity (transcribed from the claim: one event per differing compared field
in the fixed order STATE_CHANGED, METRIC_UPDATED, PROGRESS_UPDATED), as
`(event kind, payload)` pairs. -/
def existingGameSpec (g : Game) (doc : GameDoc) (t : String) :
    List (String × EventPayload) :=
  (if g.status ≠ doc.status then
     [("STATUS_CHANGED", EventPayload.statusChanged t doc.status g.status)]
   else []) ++
  (if g.score.team1Score ≠ doc.score1 ∨ g.score.team2Score ≠ doc.score2 then
     [("SCORE_UPDATED",
       EventPayload.scoreUpdated t doc.score1 doc.score2 g.score.team1Score
         g.score.team2Score)]
   else []) ++
  (if g.currentTime ≠ doc.currentTime then
     [("TIME_UPDATED", EventPayload.timeUpdated t doc.currentTime
         g.currentTime)]
   else [])

/-- A cycle in which every adapter's fetch succeeded with the given games
(statement scaffolding). -/
def cycleOf (sources : List (String × List Game)) : List AdapterCycle :=
  sources.map (fun p => ⟨p.1, Except.ok p.2⟩)

/-- All `(game, sportType)` pairs fetched in one cycle, in processing order
(statement scaffolding). -/
def allFetched (sources : List (String × List Game)) :
    List (Game × String) :=
  sources.flatMap (fun p => p.2.map (fun g => (g, p.1)))

/-- Concrete live fetched game used in witnesses: id X2, score 1-0,
ACTIVE/LIVE. -/
def demoLiveGame : Game :=
  ⟨"X2", "SOCCER", [⟨"TeamA", "TEAM1"⟩, ⟨"TeamB", "TEAM2"⟩], ⟨1, 0⟩,
   GameStatusEnum.LIVE, "10 min"⟩

/-- Concrete scheduled fetched game used in witnesses: id X1, score 0-0,
PENDING/SCHEDULED. -/
def demoSchedGame : Game :=
  ⟨"X1", "SOCCER", [⟨"TeamA", "TEAM1"⟩, ⟨"TeamB", "TEAM2"⟩], ⟨0, 0⟩,
   GameStatusEnum.SCHEDULED, "0 min"⟩

/-- Concrete stored snapshot used in witnesses and counterexamples:
id X2, teams Alice/Bob, score 1-0, LIVE, progress 10 min. -/
def demoDoc : GameDoc :=
  ⟨"X2", "SOCCER", "Alice", "Bob", 1, 0, GameStatusEnum.LIVE, "10 min", 0⟩

/-- Concrete fetched update for id X2 used in witnesses: score 2-1,
FINISHED, progress 90 min, and a different first participant name. -/
def demoUpdateGame : Game :=
  ⟨"X2", "SOCCER", [⟨"Carol", "TEAM1"⟩, ⟨"Bob", "TEAM2"⟩], ⟨2, 1⟩,
   GameStatusEnum.FINISHED, "90 min"⟩

/-- Concrete fetched game for id X2 that differs from `demoDoc` only in the
participant names (compared fields all equal). -/
def demoRenamedGame : Game :=
  ⟨"X2", "SOCCER", [⟨"Carol", "TEAM1"⟩, ⟨"Dave", "TEAM2"⟩], ⟨1, 0⟩,
   GameStatusEnum.LIVE, "10 min"⟩

/-- Concrete malformed soccer payload: a negative score makes
`Score.create` throw during conversion. -/
def demoBadSoccerMatch : SoccerMatch :=
  ⟨"M9", "Home", "Away", -1, 0, 5, "LIVE"⟩

/-- Concrete malformed hockey payload: a negative score makes
`Score.create` throw during conversion. -/
def demoBadHockeyGame : HockeyGame :=
  ⟨"H9", "Ice1", "Ice2", 0, -2, 1, "LIVE"⟩

/-- Concrete malformed tennis payload: a blank gameId makes the `Game`
constructor throw during conversion. -/
def demoBadTennisGame : TennisGame :=
  ⟨" ", "P1", "P2", [⟨6, 4⟩], "IN_PROGRESS"⟩

lemma getCurrentVersion_eq_foldl (log : List StoredEvent) (id : String) :
    getCurrentVersion log id = (versionsFor log id).foldl max 0 := by
  unfold getCurrentVersion versionsFor
  rw [List.foldl_map]

lemma foldl_max_range' (n : Nat) : (List.range' 1 n).foldl max 0 = n := by
  induction n with
  | zero => rfl
  | succ k ih =>
    rw [List.range'_1_concat, List.foldl_append, ih]
    simp only [List.foldl_cons, List.foldl_nil]
    omega

lemma versionsFor_append (log : List StoredEvent) (ev : StoredEvent)
    (id : String) :
    versionsFor (log ++ [ev]) id =
      versionsFor log id ++
        (if ev.aggregateId = id then [ev.version] else []) := by
  unfold versionsFor
  rw [List.filter_append]
  by_cases h : ev.aggregateId = id
  · simp [List.filter_singleton, h]
  · simp [List.filter_singleton, h]

lemma countEvents_append (log : List StoredEvent) (ev : StoredEvent)
    (id : String) :
    countEvents (log ++ [ev]) id =
      countEvents log id + (if ev.aggregateId = id then 1 else 0) := by
  unfold countEvents
  rw [List.filter_append]
  by_cases h : ev.aggregateId = id
  · simp [List.filter_singleton, h]
  · simp [List.filter_singleton, h]

lemma getCurrentVersion_congr {log1 log2 : List StoredEvent} (id : String)
    (h : log1.filter (fun e => e.aggregateId = id) =
         log2.filter (fun e => e.aggregateId = id)) :
    getCurrentVersion log1 id = getCurrentVersion log2 id := by
  unfold getCurrentVersion
  rw [h]

lemma getCurrentVersion_append (log : List StoredEvent) (ev : StoredEvent)
    (id : String) :
    getCurrentVersion (log ++ [ev]) id =
      if ev.aggregateId = id then max (getCurrentVersion log id) ev.version
      else getCurrentVersion log id := by
  unfold getCurrentVersion
  rw [List.filter_append, List.foldl_append]
  by_cases h : ev.aggregateId = id
  · simp [List.filter_singleton, h]
  · simp [List.filter_singleton, h]

lemma eventLogInv_nil : EventLogInv [] := by
  intro id
  simp [versionsFor, countEvents]

lemma getCurrentVersion_of_inv {log : List StoredEvent}
    (h : EventLogInv log) (id : String) :
    getCurrentVersion log id = countEvents log id := by
  rw [getCurrentVersion_eq_foldl, h id, foldl_max_range']

lemma eventLogInv_append {log : List StoredEvent} {ev : StoredEvent}
    (h : EventLogInv log)
    (hv : ev.version = getCurrentVersion log ev.aggregateId + 1) :
    EventLogInv (log ++ [ev]) := by
  intro id
  rw [versionsFor_append, countEvents_append]
  by_cases hid : ev.aggregateId = id
  · rw [if_pos hid, if_pos hid, h id, hv, hid, getCurrentVersion_of_inv h id,
      List.range'_1_concat, Nat.add_comm 1 (countEvents log id)]
  · rw [if_neg hid, if_neg hid, h id, List.append_nil, Nat.add_zero]

lemma saveEvent_ok_of_not_mem {conflicts : List (String × Nat)}
    {log : List StoredEvent} {e : EventData}
    (h : (e.aggregateId, getCurrentVersion log e.aggregateId + 1) ∉
         conflicts) :
    saveEvent conflicts log e = Except.ok (log ++ [storedOf log e]) := by
  unfold saveEvent storedOf
  simp [h]

lemma saveEvent_error_of_mem {conflicts : List (String × Nat)}
    {log : List StoredEvent} {e : EventData}
    (h : (e.aggregateId, getCurrentVersion log e.aggregateId + 1) ∈
         conflicts) :
    saveEvent conflicts log e = Except.error () := by
  unfold saveEvent
  simp [h]

lemma trySaveEvent_nil (st : SyncState) (e : EventData) :
    trySaveEvent [] st e =
      Except.ok { st with events := st.events ++ [storedOf st.events e],
                          appendAttempts := st.appendAttempts + 1 } := by
  unfold trySaveEvent
  rw [saveEvent_ok_of_not_mem (List.not_mem_nil _)]

lemma trySaveEvent_error {conflicts : List (String × Nat)} {st : SyncState}
    {e : EventData}
    (h : (e.aggregateId, getCurrentVersion st.events e.aggregateId + 1) ∈
         conflicts) :
    trySaveEvent conflicts st e =
      Except.error { st with appendAttempts := st.appendAttempts + 1 } := by
  unfold trySaveEvent
  rw [saveEvent_error_of_mem h]

lemma find?_map_replace_self (docs : List GameDoc) (g : Game)
    (h : ∃ d ∈ docs, d.gameId = g.gameId) :
    List.find? (fun d => d.gameId = g.gameId)
      (docs.map (fun d => if d.gameId = g.gameId then gameToDoc g else d)) =
      some (gameToDoc g) := by
  induction docs with
  | nil => simp at h
  | cons d ds ih =>
    by_cases hd : d.gameId = g.gameId
    · simp only [List.map_cons, if_pos hd, List.find?_cons]
      have : ((gameToDoc g).gameId = g.gameId) := rfl
      simp [this]
    · simp only [List.map_cons, if_neg hd, List.find?_cons]
      have hds : ∃ x ∈ ds, x.gameId = g.gameId := by
        rcases h with ⟨x, hx, hxid⟩
        rcases List.mem_cons.mp hx with h1 | h2
        · exact absurd (h1 ▸ hxid) hd
        · exact ⟨x, h2, hxid⟩
      simp [hd, ih hds]

lemma find?_map_replace_other (docs : List GameDoc) (g : Game) (id : String)
    (h : id ≠ g.gameId) :
    List.find? (fun d => d.gameId = id)
      (docs.map (fun d => if d.gameId = g.gameId then gameToDoc g else d)) =
      List.find? (fun d => d.gameId = id) docs := by
  induction docs with
  | nil => rfl
  | cons d ds ih =>
    by_cases hd : d.gameId = g.gameId
    · have h1 : ¬ ((gameToDoc g).gameId = id) := fun hh => h (hh ▸ rfl)
      have h2 : ¬ (d.gameId = id) := fun hh => h.elim (by rw [← hh, hd])
      simp only [List.map_cons, if_pos hd, List.find?_cons]
      simp [h1, h2, ih]
    · simp only [List.map_cons, if_neg hd, List.find?_cons]
      by_cases hd2 : d.gameId = id
      · simp [hd2]
      · simp [hd2, ih]

lemma findById_repoSave_self (docs : List GameDoc) (g : Game) :
    findById (repoSave docs g) g.gameId = some (gameToDoc g) := by
  unfold repoSave findById
  by_cases h : (docs.any fun d => d.gameId = g.gameId) = true
  · rw [if_pos h]
    apply find?_map_replace_self
    rcases List.any_eq_true.mp h with ⟨d, hd, hid⟩
    exact ⟨d, hd, of_decide_eq_true hid⟩
  · rw [if_neg h]
    rw [List.find?_append]
    have hn : List.find? (fun d => d.gameId = g.gameId) docs = none := by
      rw [List.find?_eq_none]
      intro d hd hp
      exact h (List.any_eq_true.mpr ⟨d, hd, hp⟩)
    have : ((gameToDoc g).gameId = g.gameId) := rfl
    simp [hn, this]

lemma findById_repoSave_other (docs : List GameDoc) (g : Game) (id : String)
    (h : id ≠ g.gameId) :
    findById (repoSave docs g) id = findById docs id := by
  unfold repoSave findById
  by_cases hany : (docs.any fun d => d.gameId = g.gameId) = true
  · rw [if_pos hany]
    exact find?_map_replace_other docs g id h
  · rw [if_neg hany, List.find?_append]
    have h1 : ¬ ((gameToDoc g).gameId = id) := fun hh => h (hh ▸ rfl)
    simp [h1]

lemma foldl_max_init (l : List StoredEvent) (a : Nat) :
    l.foldl (fun m e => max m e.version) a =
      max a (l.foldl (fun m e => max m e.version) 0) := by
  induction l generalizing a with
  | nil => simp
  | cons e es ih =>
    simp only [List.foldl_cons]
    rw [ih (max a e.version), ih (max 0 e.version)]
    omega

lemma getCurrentVersion_append_gen (log l : List StoredEvent) (id : String) :
    getCurrentVersion (log ++ l) id =
      max (getCurrentVersion log id) (getCurrentVersion l id) := by
  unfold getCurrentVersion
  rw [List.filter_append, List.foldl_append, foldl_max_init]

lemma getCurrentVersion_nil (id : String) : getCurrentVersion [] id = 0 :=
  rfl

lemma getCurrentVersion_singleton (e : StoredEvent) (id : String) :
    getCurrentVersion [e] id = if e.aggregateId = id then e.version else 0 := by
  unfold getCurrentVersion
  by_cases h : e.aggregateId = id <;> simp [List.filter_singleton, h]

lemma getCurrentVersion_cons (e : StoredEvent) (l : List StoredEvent)
    (id : String) :
    getCurrentVersion (e :: l) id =
      if e.aggregateId = id then max e.version (getCurrentVersion l id)
      else getCurrentVersion l id := by
  have hc : e :: l = [e] ++ l := rfl
  rw [hc, getCurrentVersion_append_gen, getCurrentVersion_singleton]
  by_cases h : e.aggregateId = id <;> simp [h]

lemma processGame_new_conflict {conflicts : List (String × Nat)}
    {st : SyncState} {g : Game} {t : String}
    (habs : findById st.games g.gameId = none)
    (hconf : (g.gameId, getCurrentVersion st.events g.gameId + 1) ∈
             conflicts) :
    processGame conflicts st g t =
      { st with appendAttempts := st.appendAttempts + 1 } := by
  unfold processGame
  rw [habs]
  unfold handleNewGame
  rw [trySaveEvent_error (e := gameCreatedEvent g t) hconf]

lemma processGame_new (st : SyncState) (g : Game) (t : String)
    (habs : findById st.games g.gameId = none) :
    processGame [] st g t =
      { events := st.events ++
          newGameStoredEvents (getCurrentVersion st.events g.gameId) g t,
        games := repoSave st.games g,
        appendAttempts := st.appendAttempts +
          (newGameStoredEvents (getCurrentVersion st.events g.gameId) g
            t).length,
        snapshotWrites := st.snapshotWrites + 1 } := by
  have hmax : ∀ n : Nat, max n (n + 1) = n + 1 := fun n => by omega
  by_cases hlive : g.status = GameStatusEnum.LIVE <;>
    by_cases hscore : 0 < g.score.team1Score ∨ 0 < g.score.team2Score <;>
    simp [processGame, habs, handleNewGame, trySaveEvent_nil, hlive,
      hscore, newGameStoredEvents, SyncState.saveGame, storedOf,
      gameCreatedEvent, gameStartedEvent, initialScoreEvent,
      getCurrentVersion_append_gen, getCurrentVersion_cons,
      getCurrentVersion_nil, hmax, List.append_assoc] <;>
    omega

lemma processGame_existing (st : SyncState) (g : Game) (doc : GameDoc)
    (t : String) (hex : findById st.games g.gameId = some doc) :
    processGame [] st g t =
      if g.status ≠ doc.status ∨
         (g.score.team1Score ≠ doc.score1 ∨
          g.score.team2Score ≠ doc.score2) ∨
         g.currentTime ≠ doc.currentTime then
        { events := st.events ++
            existingGameStoredEvents (getCurrentVersion st.events g.gameId)
              g doc t,
          games := repoSave st.games g,
          appendAttempts := st.appendAttempts +
            (existingGameStoredEvents (getCurrentVersion st.events g.gameId)
              g doc t).length,
          snapshotWrites := st.snapshotWrites + 1 }
      else st := by
  have hmax : ∀ n : Nat, max n (n + 1) = n + 1 := fun n => by omega
  have hmax2 : ∀ n : Nat, max n (n + 1 + 1) = n + 1 + 1 := fun n => by omega
  by_cases h1 : g.status ≠ doc.status <;>
    by_cases h2 : g.score.team1Score ≠ doc.score1 ∨
      g.score.team2Score ≠ doc.score2 <;>
    by_cases h3 : g.currentTime ≠ doc.currentTime <;>
    simp [processGame, hex, handleExistingGame, trySaveEvent_nil, h1, h2, h3,
      existingGameStoredEvents, SyncState.saveGame, storedOf,
      statusChangedEvent, scoreChangedEvent, timeChangedEvent,
      getCurrentVersion_append_gen, getCurrentVersion_cons,
      getCurrentVersion_nil, getCurrentVersion_singleton, hmax, hmax2,
      List.append_assoc]

lemma saveEvent_ok_inv {conflicts : List (String × Nat)}
    {log : List StoredEvent} {e : EventData} {log2 : List StoredEvent}
    (h : saveEvent conflicts log e = Except.ok log2) :
    log2 = log ++ [storedOf log e] := by
  unfold saveEvent at h
  simp only [] at h
  split at h
  · cases h
  · cases h
    rfl

lemma trySaveEvent_ok_spec {conflicts : List (String × Nat)}
    {st : SyncState} {e : EventData} {s : SyncState}
    (h : trySaveEvent conflicts st e = Except.ok s) :
    s.events = st.events ++ [storedOf st.events e] ∧ s.games = st.games ∧
      s.snapshotWrites = st.snapshotWrites := by
  unfold trySaveEvent at h
  rcases hs : saveEvent conflicts st.events e with u | log
  · rw [hs] at h
    cases h
  · rw [hs] at h
    cases h
    exact ⟨saveEvent_ok_inv hs, rfl, rfl⟩

lemma trySaveEvent_error_spec {conflicts : List (String × Nat)}
    {st : SyncState} {e : EventData} {s : SyncState}
    (h : trySaveEvent conflicts st e = Except.error s) :
    s.events = st.events ∧ s.games = st.games ∧
      s.snapshotWrites = st.snapshotWrites := by
  unfold trySaveEvent at h
  rcases hs : saveEvent conflicts st.events e with u | log
  · rw [hs] at h
    cases h
    exact ⟨rfl, rfl, rfl⟩
  · rw [hs] at h
    cases h

lemma trySaveEvent_pres {conflicts : List (String × Nat)}
    {st s : SyncState} {e : EventData}
    (h : trySaveEvent conflicts st e = Except.ok s ∨
         trySaveEvent conflicts st e = Except.error s)
    (hinv : EventLogInv st.events) :
    EventLogInv s.events ∧
    (∀ id, e.aggregateId ≠ id →
      s.events.filter (fun x => x.aggregateId = id) =
        st.events.filter (fun x => x.aggregateId = id)) ∧
    s.games = st.games ∧ s.snapshotWrites = st.snapshotWrites := by
  rcases h with h | h
  · obtain ⟨he, hg, hw⟩ := trySaveEvent_ok_spec h
    refine ⟨?_, ?_, hg, hw⟩
    · rw [he]
      exact eventLogInv_append hinv rfl
    · intro id hid
      rw [he, List.filter_append]
      simp [List.filter_singleton, storedOf, hid]
  · obtain ⟨he, hg, hw⟩ := trySaveEvent_error_spec h
    rw [he, hg, hw]
    exact ⟨hinv, fun id _ => rfl, rfl, rfl⟩

lemma optSave_pres {conflicts : List (String × Nat)} {st1 s : SyncState}
    {e : EventData} {P : Prop} [Decidable P]
    (h : (if P then trySaveEvent conflicts st1 e else Except.ok st1) =
           Except.ok s ∨
         (if P then trySaveEvent conflicts st1 e else Except.ok st1) =
           Except.error s)
    (hinv : EventLogInv st1.events) :
    EventLogInv s.events ∧
    (∀ id, e.aggregateId ≠ id →
      s.events.filter (fun x => x.aggregateId = id) =
        st1.events.filter (fun x => x.aggregateId = id)) ∧
    s.games = st1.games ∧ s.snapshotWrites = st1.snapshotWrites := by
  by_cases hp : P
  · simp only [if_pos hp] at h
    exact trySaveEvent_pres h hinv
  · simp only [if_neg hp] at h
    rcases h with h | h
    · cases h
      exact ⟨hinv, fun id _ => rfl, rfl, rfl⟩
    · cases h

lemma handleNewGame_props (conflicts : List (String × Nat)) (st : SyncState)
    (g : Game) (t : String) (hinv : EventLogInv st.events) (s : SyncState)
    (h : handleNewGame conflicts st g t = Except.ok s ∨
         handleNewGame conflicts st g t = Except.error s) :
    EventLogInv s.events ∧
    (∀ id, id ≠ g.gameId →
      s.events.filter (fun x => x.aggregateId = id) =
        st.events.filter (fun x => x.aggregateId = id)) ∧
    (s.games = st.games ∨ s.games = repoSave st.games g) := by
  unfold handleNewGame at h
  rcases h1 : trySaveEvent conflicts st (gameCreatedEvent g t) with s1 | s1
  · simp only [h1] at h
    rcases h with h | h
    · cases h
    · cases h
      obtain ⟨i1, f1, g1, _⟩ := trySaveEvent_pres (Or.inr h1) hinv
      exact ⟨i1, fun id hid => f1 id (Ne.symm hid), Or.inl g1⟩
  · simp only [h1] at h
    obtain ⟨i1, f1, g1, _⟩ := trySaveEvent_pres (Or.inl h1) hinv
    rcases h2 : (if g.status = GameStatusEnum.LIVE then
        trySaveEvent conflicts s1 (gameStartedEvent g t)
      else Except.ok s1) with s2 | s2
    · simp only [h2] at h
      rcases h with h | h
      · cases h
      · cases h
        obtain ⟨i2, f2, g2, _⟩ := optSave_pres (Or.inr h2) i1
        exact ⟨i2, fun id hid =>
          (f2 id (Ne.symm hid)).trans (f1 id (Ne.symm hid)),
          Or.inl (g2.trans g1)⟩
    · simp only [h2] at h
      obtain ⟨i2, f2, g2, _⟩ := optSave_pres (Or.inl h2) i1
      rcases h3 : (if 0 < g.score.team1Score ∨ 0 < g.score.team2Score then
          trySaveEvent conflicts s2 (initialScoreEvent g t)
        else Except.ok s2) with s3 | s3
      · simp only [h3] at h
        rcases h with h | h
        · cases h
        · cases h
          obtain ⟨i3, f3, g3, _⟩ := optSave_pres (Or.inr h3) i2
          exact ⟨i3, fun id hid =>
            ((f3 id (Ne.symm hid)).trans (f2 id (Ne.symm hid))).trans
              (f1 id (Ne.symm hid)),
            Or.inl ((g3.trans g2).trans g1)⟩
      · simp only [h3] at h
        rcases h with h | h
        · cases h
          obtain ⟨i3, f3, g3, _⟩ := optSave_pres (Or.inl h3) i2
          refine ⟨i3, fun id hid =>
            ((f3 id (Ne.symm hid)).trans (f2 id (Ne.symm hid))).trans
              (f1 id (Ne.symm hid)), Or.inr ?_⟩
          show repoSave s3.games g = repoSave st.games g
          rw [(g3.trans g2).trans g1]
        · cases h

lemma handleExistingGame_props (conflicts : List (String × Nat))
    (st : SyncState) (g : Game) (doc : GameDoc) (t : String)
    (hinv : EventLogInv st.events) (s : SyncState)
    (h : handleExistingGame conflicts st g doc t = Except.ok s ∨
         handleExistingGame conflicts st g doc t = Except.error s) :
    EventLogInv s.events ∧
    (∀ id, id ≠ g.gameId →
      s.events.filter (fun x => x.aggregateId = id) =
        st.events.filter (fun x => x.aggregateId = id)) ∧
    (s.games = st.games ∨ s.games = repoSave st.games g) := by
  unfold handleExistingGame at h
  rcases h1 : (if g.status ≠ doc.status then
      trySaveEvent conflicts st (statusChangedEvent g doc t)
    else Except.ok st) with s1 | s1
  · simp only [h1] at h
    rcases h with h | h
    · cases h
    · cases h
      obtain ⟨i1, f1, g1, _⟩ := optSave_pres (Or.inr h1) hinv
      exact ⟨i1, fun id hid => f1 id (Ne.symm hid), Or.inl g1⟩
  · simp only [h1] at h
    obtain ⟨i1, f1, g1, _⟩ := optSave_pres (Or.inl h1) hinv
    rcases h2 : (if g.score.team1Score ≠ doc.score1 ∨
        g.score.team2Score ≠ doc.score2 then
      trySaveEvent conflicts s1 (scoreChangedEvent g doc t)
    else Except.ok s1) with s2 | s2
    · simp only [h2] at h
      rcases h with h | h
      · cases h
      · cases h
        obtain ⟨i2, f2, g2, _⟩ := optSave_pres (Or.inr h2) i1
        exact ⟨i2, fun id hid =>
          (f2 id (Ne.symm hid)).trans (f1 id (Ne.symm hid)),
          Or.inl (g2.trans g1)⟩
    · simp only [h2] at h
      obtain ⟨i2, f2, g2, _⟩ := optSave_pres (Or.inl h2) i1
      rcases h3 : (if g.currentTime ≠ doc.currentTime then
          trySaveEvent conflicts s2 (timeChangedEvent g doc t)
        else Except.ok s2) with s3 | s3
      · simp only [h3] at h
        rcases h with h | h
        · cases h
        · cases h
          obtain ⟨i3, f3, g3, _⟩ := optSave_pres (Or.inr h3) i2
          exact ⟨i3, fun id hid =>
            ((f3 id (Ne.symm hid)).trans (f2 id (Ne.symm hid))).trans
              (f1 id (Ne.symm hid)),
            Or.inl ((g3.trans g2).trans g1)⟩
      · simp only [h3] at h
        obtain ⟨i3, f3, g3, _⟩ := optSave_pres (Or.inl h3) i2
        have hfr : ∀ id, id ≠ g.gameId →
            s3.events.filter (fun x => x.aggregateId = id) =
              st.events.filter (fun x => x.aggregateId = id) :=
          fun id hid =>
            ((f3 id (Ne.symm hid)).trans (f2 id (Ne.symm hid))).trans
              (f1 id (Ne.symm hid))
        by_cases hAny : g.status ≠ doc.status ∨
            (g.score.team1Score ≠ doc.score1 ∨
             g.score.team2Score ≠ doc.score2) ∨
            g.currentTime ≠ doc.currentTime
        · simp only [if_pos hAny] at h
          rcases h with h | h
          · cases h
            refine ⟨i3, hfr, Or.inr ?_⟩
            show repoSave s3.games g = repoSave st.games g
            rw [(g3.trans g2).trans g1]
          · cases h
        · simp only [if_neg hAny] at h
          rcases h with h | h
          · cases h
            exact ⟨i3, hfr, Or.inl ((g3.trans g2).trans g1)⟩
          · cases h

lemma processGame_props (conflicts : List (String × Nat)) (st : SyncState)
    (g : Game) (t : String) (hinv : EventLogInv st.events) :
    EventLogInv (processGame conflicts st g t).events ∧
    (∀ id, id ≠ g.gameId →
      (processGame conflicts st g t).events.filter
          (fun x => x.aggregateId = id) =
        st.events.filter (fun x => x.aggregateId = id)) ∧
    ((processGame conflicts st g t).games = st.games ∨
     (processGame conflicts st g t).games = repoSave st.games g) := by
  unfold processGame
  rcases hf : findById st.games g.gameId with _ | doc
  · rcases hh : handleNewGame conflicts st g t with s | s
    · simp only [hh]
      exact handleNewGame_props conflicts st g t hinv s (Or.inr hh)
    · simp only [hh]
      exact handleNewGame_props conflicts st g t hinv s (Or.inl hh)
  · rcases hh : handleExistingGame conflicts st g doc t with s | s
    · simp only [hh]
      exact handleExistingGame_props conflicts st g doc t hinv s (Or.inr hh)
    · simp only [hh]
      exact handleExistingGame_props conflicts st g doc t hinv s (Or.inl hh)

lemma processGame_inv (conflicts : List (String × Nat)) (st : SyncState)
    (g : Game) (t : String) (hinv : EventLogInv st.events) :
    EventLogInv (processGame conflicts st g t).events :=
  (processGame_props conflicts st g t hinv).1

lemma processGame_findById_frame (conflicts : List (String × Nat))
    (st : SyncState) (g : Game) (t : String) (id : String)
    (hid : id ≠ g.gameId) (hinv : EventLogInv st.events) :
    findById (processGame conflicts st g t).games id =
      findById st.games id := by
  rcases (processGame_props conflicts st g t hinv).2.2 with h | h
  · rw [h]
  · rw [h, findById_repoSave_other st.games g id hid]

lemma processGame_filter_frame (conflicts : List (String × Nat))
    (st : SyncState) (g : Game) (t : String) (id : String)
    (hid : id ≠ g.gameId) (hinv : EventLogInv st.events) :
    (processGame conflicts st g t).events.filter
        (fun x => x.aggregateId = id) =
      st.events.filter (fun x => x.aggregateId = id) :=
  (processGame_props conflicts st g t hinv).2.1 id hid

lemma foldl_pres {α : Type _} (P : SyncState → Prop)
    (f : SyncState → α → SyncState) (hf : ∀ s x, P s → P (f s x)) :
    ∀ (l : List α) (s : SyncState), P s → P (l.foldl f s) := by
  intro l
  induction l with
  | nil => intro s hs; exact hs
  | cons x xs ih =>
    intro s hs
    exact ih (f s x) (hf s x hs)

lemma syncSport_inv (conflicts : List (String × Nat)) (st : SyncState)
    (a : AdapterCycle) (hinv : EventLogInv st.events) :
    EventLogInv (syncSport conflicts st a).events := by
  unfold syncSport
  rcases a.fetched with u | games
  · exact hinv
  · exact foldl_pres (fun s => EventLogInv s.events) _
      (fun s g hs => processGame_inv conflicts s g a.sportType hs)
      games st hinv

lemma syncAllSports_inv (conflicts : List (String × Nat)) (st : SyncState)
    (adapters : List AdapterCycle) (hinv : EventLogInv st.events) :
    EventLogInv (syncAllSports conflicts st adapters).events :=
  foldl_pres (fun s => EventLogInv s.events) _
    (fun s a hs => syncSport_inv conflicts s a hs) adapters st hinv

lemma runCycles_inv (conflicts : List (String × Nat)) (st : SyncState)
    (cycles : List (List AdapterCycle)) (hinv : EventLogInv st.events) :
    EventLogInv (runCycles conflicts st cycles).events :=
  foldl_pres (fun s => EventLogInv s.events) _
    (fun s adapters hs => syncAllSports_inv conflicts s adapters hs)
    cycles st hinv

lemma getEventsByGameId_of_inv {log : List StoredEvent}
    (hinv : EventLogInv log) (id : String) :
    getEventsByGameId log id = log.filter (fun e => e.aggregateId = id) := by
  unfold getEventsByGameId
  apply List.Sorted.insertionSort_eq
  show List.Pairwise _ (log.filter fun e => e.aggregateId = id)
  have hp : List.Pairwise (· ≤ ·)
      ((log.filter (fun e => e.aggregateId = id)).map
        (fun e => e.version)) := by
    have := hinv id
    unfold versionsFor at this
    rw [this]
    exact (List.pairwise_lt_range' 1 (countEvents log id)).imp
      Nat.le_of_lt
  exact List.pairwise_map.mp hp

lemma mem_newGameStoredEvents_aggregateId {v : Nat} {g : Game} {t : String}
    {e : StoredEvent} (he : e ∈ newGameStoredEvents v g t) :
    e.aggregateId = g.gameId := by
  unfold newGameStoredEvents at he
  rcases List.mem_cons.mp he with rfl | he2
  · rfl
  · rcases List.mem_append.mp he2 with h | h <;> split at h <;>
      simp at h <;> subst h <;> rfl

lemma processGame_unchanged (conflicts : List (String × Nat))
    (st : SyncState) (g : Game) (t : String)
    (hex : findById st.games g.gameId = some (gameToDoc g)) :
    processGame conflicts st g t = st := by
  simp [processGame, hex, handleExistingGame, gameToDoc]

lemma mapOrThrow_error {f : α → Except Unit β} {l : List α}
    (h : ∃ a ∈ l, f a = Except.error ()) :
    mapOrThrow f l = Except.error () := by
  induction l with
  | nil => simp at h
  | cons a as ih =>
    rcases h with ⟨x, hx, hfx⟩
    rcases List.mem_cons.mp hx with rfl | hmem
    · unfold mapOrThrow
      rw [hfx]
    · unfold mapOrThrow
      rcases hfa : f a with u | b
      · rfl
      · rw [ih ⟨x, hmem, hfx⟩]

/-- C1: the spec claims that after a completed cycle the snapshot's version
field equals the maximum version among the entity's events, and in
particular that after a first cycle creating the entity with GAME_CREATED
at version 1 the stored snapshot reports version 1.  The code violates
this: `GameRepository.save` hard-codes `version: 0` on every write (and the
`updateVersion` method that would fix it is never called), so after the
first cycle the event log holds GAME_CREATED at version 1 while the
snapshot's version field is 0. -/
theorem snapshotVersion_stuck_at_zero :
    ((getEventsByGameId (syncAllSports [] SyncState.empty
          [⟨"SOCCER", Except.ok [demoSchedGame]⟩]).events "X1").map
        (fun e => (e.eventType, e.version)) = [("GAME_CREATED", 1)]) ∧
    ((findById (syncAllSports [] SyncState.empty
          [⟨"SOCCER", Except.ok [demoSchedGame]⟩]).games "X1").map
        (fun d => d.version) = some 0) := by
  decide

/-- C2: for every entity, after any sequence of sequentially executed sync
cycles starting from empty stores, the events returned by
`getEventsByGameId` carry versions exactly 1, 2, ..., N in ascending order
with no gaps and no duplicates, where N is the entity's event count. -/
theorem version_monotonicity (cycles : List (List AdapterCycle))
    (aggregateId : String) :
    (getEventsByGameId (runCycles [] SyncState.empty cycles).events
        aggregateId).map (fun e => e.version) =
      List.range' 1
        (countEvents (runCycles [] SyncState.empty cycles).events
          aggregateId) := by
  have hinv := runCycles_inv [] SyncState.empty cycles eventLogInv_nil
  rw [getEventsByGameId_of_inv hinv]
  have h := hinv aggregateId
  unfold versionsFor at h
  exact h

/-- C3 counterexample: the claim says a conflicting append is retried with
a freshly computed version before the entity is skipped.  In the code no
retry exists: with the first version slot of X1 claimed by a concurrent
writer, processing X1 performs exactly one append attempt (a retry would
make it at least two), appends nothing, writes no snapshot - and the next
entity of the same cycle is still processed in full. -/
theorem conflict_retry_counterexample :
    (processGame [("X1", 1)] SyncState.empty demoSchedGame
        "SOCCER").appendAttempts = 1 ∧
    (processGame [("X1", 1)] SyncState.empty demoSchedGame
        "SOCCER").events = [] ∧
    (processGame [("X1", 1)] SyncState.empty demoSchedGame
        "SOCCER").snapshotWrites = 0 ∧
    (syncSport [("X1", 1)] SyncState.empty
        ⟨"SOCCER", Except.ok [demoSchedGame, demoLiveGame]⟩).events.map
      (fun e => (e.aggregateId, e.eventType)) =
      [("X2", "GAME_CREATED"), ("X2", "GAME_STARTED"),
       ("X2", "SCORE_UPDATED")] := by
  decide

/-- C3 (amended): when an event append fails because a concurrent writer
already claimed the computed version, the caller does not retry: the single
failed attempt is caught in processGame, the entity is skipped for the
cycle with no event appended and no snapshot written, and processing
continues with the remaining entities of the cycle. -/
theorem conflict_skips_entity (conflicts : List (String × Nat))
    (st : SyncState) (g : Game) (t : String) (gs : List Game)
    (habs : findById st.games g.gameId = none)
    (hconf : (g.gameId, getCurrentVersion st.events g.gameId + 1) ∈
             conflicts) :
    processGame conflicts st g t =
      { st with appendAttempts := st.appendAttempts + 1 } ∧
    (g :: gs).foldl (fun s x => processGame conflicts s x t) st =
      gs.foldl (fun s x => processGame conflicts s x t)
        { st with appendAttempts := st.appendAttempts + 1 } := by
  have h := processGame_new_conflict (t := t) habs hconf
  exact ⟨h, by rw [List.foldl_cons, h]⟩

theorem conflict_skips_entity_witness :
    processGame [("X1", 1)] SyncState.empty demoSchedGame "SOCCER" =
      { SyncState.empty with
          appendAttempts := SyncState.empty.appendAttempts + 1 } :=
  (conflict_skips_entity [("X1", 1)] SyncState.empty demoSchedGame "SOCCER"
    [] (by decide) (by decide)).1

/-- C4: for a fetched entity with no existing snapshot, processing appends
GAME_CREATED first, GAME_STARTED next exactly when the fetched status is
LIVE, and SCORE_UPDATED last - with previous score 0-0 and the fetched new
score - exactly when a fetched score is nonzero; afterwards the snapshot is
upserted with the fetched state. -/
theorem new_entity_bootstrap (st : SyncState) (g : Game) (t : String)
    (habs : findById st.games g.gameId = none) :
    ((processGame [] st g t).events.drop st.events.length).map
        (fun e => (e.eventType, e.payload)) = newGameSpec g t ∧
    (∀ e ∈ (processGame [] st g t).events.drop st.events.length,
       e.aggregateId = g.gameId) ∧
    findById (processGame [] st g t).games g.gameId = some (gameToDoc g) ∧
    (processGame [] st g t).snapshotWrites = st.snapshotWrites + 1 := by
  rw [processGame_new st g t habs]
  refine ⟨?_, ?_, ?_, rfl⟩
  · show ((st.events ++ _).drop st.events.length).map _ = _
    rw [List.drop_left]
    by_cases hlive : g.status = GameStatusEnum.LIVE <;>
      by_cases hscore : 0 < g.score.team1Score ∨ 0 < g.score.team2Score <;>
      simp [newGameStoredEvents, newGameSpec, hlive, hscore]
  · show ∀ e ∈ (st.events ++ _).drop st.events.length, _
    rw [List.drop_left]
    intro e he
    exact mem_newGameStoredEvents_aggregateId he
  · exact findById_repoSave_self st.games g

theorem new_entity_bootstrap_witness :
    ((processGame [] SyncState.empty demoLiveGame "SOCCER").events.drop
        SyncState.empty.events.length).map
      (fun e => (e.eventType, e.payload)) =
        newGameSpec demoLiveGame "SOCCER" ∧
    (∀ e ∈ (processGame [] SyncState.empty demoLiveGame
        "SOCCER").events.drop SyncState.empty.events.length,
       e.aggregateId = demoLiveGame.gameId) ∧
    findById (processGame [] SyncState.empty demoLiveGame "SOCCER").games
        demoLiveGame.gameId = some (gameToDoc demoLiveGame) ∧
    (processGame [] SyncState.empty demoLiveGame "SOCCER").snapshotWrites =
      SyncState.empty.snapshotWrites + 1 :=
  new_entity_bootstrap SyncState.empty demoLiveGame "SOCCER" (by decide)

/-- C5: for a fetched entity with an existing snapshot, each differing
compared field produces exactly one event of the corresponding kind, in the
fixed order STATUS_CHANGED, SCORE_UPDATED, TIME_UPDATED, with consecutive
(hence strictly increasing) versions continuing from the entity's current
version; the snapshot is replaced in full (upserted with the fetched state)
exactly when at least one compared field differed, and untouched
otherwise. -/
theorem field_diff_completeness (st : SyncState) (g : Game) (doc : GameDoc)
    (t : String) (hex : findById st.games g.gameId = some doc) :
    ((processGame [] st g t).events.drop st.events.length).map
        (fun e => (e.eventType, e.payload)) = existingGameSpec g doc t ∧
    ((processGame [] st g t).events.drop st.events.length).map
        (fun e => e.version) =
      List.range' (getCurrentVersion st.events g.gameId + 1)
        (existingGameSpec g doc t).length ∧
    (if g.status ≠ doc.status ∨
        (g.score.team1Score ≠ doc.score1 ∨
         g.score.team2Score ≠ doc.score2) ∨
        g.currentTime ≠ doc.currentTime then
       findById (processGame [] st g t).games g.gameId =
           some (gameToDoc g) ∧
         (processGame [] st g t).snapshotWrites = st.snapshotWrites + 1
     else (processGame [] st g t).games = st.games ∧
       (processGame [] st g t).snapshotWrites = st.snapshotWrites) := by
  rw [processGame_existing st g doc t hex]
  by_cases h1 : g.status ≠ doc.status <;>
    by_cases h2 : g.score.team1Score ≠ doc.score1 ∨
      g.score.team2Score ≠ doc.score2 <;>
    by_cases h3 : g.currentTime ≠ doc.currentTime <;>
    simp [h1, h2, h3, existingGameStoredEvents, existingGameSpec,
      List.drop_left, findById_repoSave_self, List.range']

theorem field_diff_completeness_witness :
    ((processGame [] ⟨[], [demoDoc], 0, 0⟩ demoUpdateGame
        "SOCCER").events.drop
        (SyncState.events ⟨[], [demoDoc], 0, 0⟩).length).map
      (fun e => (e.eventType, e.payload)) =
        existingGameSpec demoUpdateGame demoDoc "SOCCER" ∧
    ((processGame [] ⟨[], [demoDoc], 0, 0⟩ demoUpdateGame
        "SOCCER").events.drop
        (SyncState.events ⟨[], [demoDoc], 0, 0⟩).length).map
      (fun e => e.version) =
      List.range'
        (getCurrentVersion (SyncState.events ⟨[], [demoDoc], 0, 0⟩)
          demoUpdateGame.gameId + 1)
        (existingGameSpec demoUpdateGame demoDoc "SOCCER").length ∧
    (if demoUpdateGame.status ≠ demoDoc.status ∨
        (demoUpdateGame.score.team1Score ≠ demoDoc.score1 ∨
         demoUpdateGame.score.team2Score ≠ demoDoc.score2) ∨
        demoUpdateGame.currentTime ≠ demoDoc.currentTime then
       findById (processGame [] ⟨[], [demoDoc], 0, 0⟩ demoUpdateGame
           "SOCCER").games demoUpdateGame.gameId =
           some (gameToDoc demoUpdateGame) ∧
         (processGame [] ⟨[], [demoDoc], 0, 0⟩ demoUpdateGame
           "SOCCER").snapshotWrites =
           (SyncState.snapshotWrites ⟨[], [demoDoc], 0, 0⟩) + 1
     else (processGame [] ⟨[], [demoDoc], 0, 0⟩ demoUpdateGame
         "SOCCER").games = (SyncState.games ⟨[], [demoDoc], 0, 0⟩) ∧
       (processGame [] ⟨[], [demoDoc], 0, 0⟩ demoUpdateGame
         "SOCCER").snapshotWrites =
         (SyncState.snapshotWrites ⟨[], [demoDoc], 0, 0⟩)) :=
  field_diff_completeness ⟨[], [demoDoc], 0, 0⟩ demoUpdateGame demoDoc
    "SOCCER" (by decide)

/-- C7: for each of the three adapters, a failed upstream fetch (thrown
HTTP error) or a malformed payload (a per-game conversion that throws)
makes fetchGames return the empty list instead of propagating the error. -/
theorem adapter_failure_resilience :
    (∀ e, SoccerAdapter.fetchGames (Except.error e) = []) ∧
    (∀ ms : List SoccerMatch,
      (∃ m ∈ ms, SoccerAdapter.convertToGame m = Except.error ()) →
      SoccerAdapter.fetchGames (Except.ok ms) = []) ∧
    (∀ e, HockeyAdapter.fetchGames (Except.error e) = []) ∧
    (∀ hs : List HockeyGame,
      (∃ h ∈ hs, HockeyAdapter.convertToGame h = Except.error ()) →
      HockeyAdapter.fetchGames (Except.ok hs) = []) ∧
    (∀ e, TennisAdapter.fetchGames (Except.error e) = []) ∧
    (∀ ts : List TennisGame,
      (∃ x ∈ ts, TennisAdapter.convertToGame x = Except.error ()) →
      TennisAdapter.fetchGames (Except.ok ts) = []) := by
  refine ⟨fun e => rfl, fun ms hm => ?_, fun e => rfl, fun hs hm => ?_,
    fun e => rfl, fun ts hm => ?_⟩
  · show (match mapOrThrow SoccerAdapter.convertToGame ms with
          | Except.error _ => []
          | Except.ok gs => gs) = []
    rw [mapOrThrow_error hm]
  · show (match mapOrThrow HockeyAdapter.convertToGame hs with
          | Except.error _ => []
          | Except.ok gs => gs) = []
    rw [mapOrThrow_error hm]
  · show (match mapOrThrow TennisAdapter.convertToGame ts with
          | Except.error _ => []
          | Except.ok gs => gs) = []
    rw [mapOrThrow_error hm]

theorem adapter_failure_resilience_witness :
    SoccerAdapter.fetchGames (Except.ok [demoBadSoccerMatch]) = [] ∧
    HockeyAdapter.fetchGames (Except.ok [demoBadHockeyGame]) = [] ∧
    TennisAdapter.fetchGames (Except.ok [demoBadTennisGame]) = [] :=
  ⟨adapter_failure_resilience.2.1 [demoBadSoccerMatch]
      ⟨demoBadSoccerMatch, by simp, rfl⟩,
   adapter_failure_resilience.2.2.2.1 [demoBadHockeyGame]
      ⟨demoBadHockeyGame, by simp, rfl⟩,
   adapter_failure_resilience.2.2.2.2.2 [demoBadTennisGame]
      ⟨demoBadTennisGame, by simp, by rfl⟩⟩

/-- C8: within one cycle, an adapter whose fetch throws leaves the state
untouched while every other adapter is still processed (the cycle over
`pre ++ failing :: post` equals the cycle over `pre ++ post`); and within
one adapter, an entity whose processing fails (here: a version conflict on
a new entity, with the failed attempt recorded) does not prevent the
remaining entities of that adapter from being processed. -/
theorem partial_failure_isolation (conflicts : List (String × Nat))
    (st : SyncState) (g : Game) (gs : List Game) (t : String)
    (habs : findById st.games g.gameId = none)
    (hconf : (g.gameId, getCurrentVersion st.events g.gameId + 1) ∈
             conflicts) :
    (∀ (st2 : SyncState) (pre post : List AdapterCycle) (t2 : String),
       syncAllSports conflicts st2 (pre ++ ⟨t2, Except.error ()⟩ :: post) =
         syncAllSports conflicts st2 (pre ++ post)) ∧
    syncSport conflicts st ⟨t, Except.ok (g :: gs)⟩ =
      syncSport conflicts
        { st with appendAttempts := st.appendAttempts + 1 }
        ⟨t, Except.ok gs⟩ := by
  constructor
  · intro st2 pre post t2
    unfold syncAllSports
    rw [List.foldl_append, List.foldl_cons, List.foldl_append]
    rfl
  · show List.foldl _ st (g :: gs) = List.foldl _ _ gs
    rw [List.foldl_cons, processGame_new_conflict (t := t) habs hconf]

theorem partial_failure_isolation_witness :
    (syncAllSports [("X1", 1)] SyncState.empty
        ([] ++ ⟨"TENNIS", Except.error ()⟩ ::
          [⟨"SOCCER", Except.ok [demoLiveGame]⟩]) =
      syncAllSports [("X1", 1)] SyncState.empty
        ([] ++ [⟨"SOCCER", Except.ok [demoLiveGame]⟩])) ∧
    syncSport [("X1", 1)] SyncState.empty
        ⟨"SOCCER", Except.ok (demoSchedGame :: [demoLiveGame])⟩ =
      syncSport [("X1", 1)]
        { SyncState.empty with
            appendAttempts := SyncState.empty.appendAttempts + 1 }
        ⟨"SOCCER", Except.ok [demoLiveGame]⟩ := by
  have h := partial_failure_isolation [("X1", 1)] SyncState.empty
    demoSchedGame [demoLiveGame] "SOCCER" (by decide) (by decide)
  exact ⟨h.1 SyncState.empty [] [⟨"SOCCER", Except.ok [demoLiveGame]⟩]
    "TENNIS", h.2⟩

/-- C9 counterexample: the claim says stored participant names never change
after creation regardless of what the upstream later supplies.  With
snapshot X2 holding team1 = Alice, a fetched update that renames the
participant to Carol and also changes the score makes handleExistingGame
save the full new game, and the stored name becomes Carol. -/
theorem participant_names_mutable :
    (findById [demoDoc] "X2").map (fun d => d.team1) = some "Alice" ∧
    (findById (processGame [] ⟨[], [demoDoc], 0, 0⟩ demoUpdateGame
        "SOCCER").games "X2").map (fun d => d.team1) = some "Carol" := by
  decide

/-- C9 (amended): stored participant names are preserved only across cycles
in which no compared field (status, score, progress time) differs; when
some compared field differs, the snapshot is replaced in full and the
stored names become the freshly fetched ones. -/
theorem participant_names_follow_writes (st : SyncState) (g : Game)
    (doc : GameDoc) (t : String)
    (hex : findById st.games g.gameId = some doc) :
    (findById (processGame [] st g t).games g.gameId).map
        (fun d => (d.team1, d.team2)) =
      some (if g.status ≠ doc.status ∨
               (g.score.team1Score ≠ doc.score1 ∨
                g.score.team2Score ≠ doc.score2) ∨
               g.currentTime ≠ doc.currentTime then
              (g.getTeam1Name, g.getTeam2Name)
            else (doc.team1, doc.team2)) := by
  rw [processGame_existing st g doc t hex]
  by_cases hAny : g.status ≠ doc.status ∨
      (g.score.team1Score ≠ doc.score1 ∨
       g.score.team2Score ≠ doc.score2) ∨
      g.currentTime ≠ doc.currentTime
  · rw [if_pos hAny, if_pos hAny]
    show (findById (repoSave st.games g) g.gameId).map _ = _
    rw [findById_repoSave_self]
    rfl
  · rw [if_neg hAny, if_neg hAny, hex]
    rfl

theorem participant_names_follow_writes_witness :
    (findById (processGame [] ⟨[], [demoDoc], 0, 0⟩ demoUpdateGame
        "SOCCER").games demoUpdateGame.gameId).map
        (fun d => (d.team1, d.team2)) =
      some (if demoUpdateGame.status ≠ demoDoc.status ∨
               (demoUpdateGame.score.team1Score ≠ demoDoc.score1 ∨
                demoUpdateGame.score.team2Score ≠ demoDoc.score2) ∨
               demoUpdateGame.currentTime ≠ demoDoc.currentTime then
              (demoUpdateGame.getTeam1Name, demoUpdateGame.getTeam2Name)
            else (demoDoc.team1, demoDoc.team2)) :=
  participant_names_follow_writes ⟨[], [demoDoc], 0, 0⟩ demoUpdateGame
    demoDoc "SOCCER" (by decide)

/-- C10: when the fetched entity agrees with its snapshot on every compared
field (status, both scores, progress time), the cycle appends no event and
performs no snapshot write for that entity - the whole state is unchanged -
so stored participant names and sport keep their previous values even if
the fetched entity differs in exactly those uncompared fields. -/
theorem uncompared_fields_ignored (conflicts : List (String × Nat))
    (st : SyncState) (g : Game) (doc : GameDoc) (t : String)
    (hex : findById st.games g.gameId = some doc)
    (hst : g.status = doc.status)
    (hs1 : g.score.team1Score = doc.score1)
    (hs2 : g.score.team2Score = doc.score2)
    (hct : g.currentTime = doc.currentTime) :
    processGame conflicts st g t = st ∧
    findById (processGame conflicts st g t).games g.gameId = some doc := by
  have h : processGame conflicts st g t = st := by
    simp [processGame, hex, handleExistingGame, hst, hs1, hs2, hct]
  exact ⟨h, by rw [h, hex]⟩

theorem uncompared_fields_ignored_witness :
    processGame [] ⟨[], [demoDoc], 0, 0⟩ demoRenamedGame "SOCCER" =
      ⟨[], [demoDoc], 0, 0⟩ ∧
    findById (processGame [] ⟨[], [demoDoc], 0, 0⟩ demoRenamedGame
        "SOCCER").games demoRenamedGame.gameId = some demoDoc :=
  uncompared_fields_ignored [] ⟨[], [demoDoc], 0, 0⟩ demoRenamedGame
    demoDoc "SOCCER" (by decide) (by decide) (by decide) (by decide)
      (by decide)

lemma map_newGameStoredEvents (v : Nat) (g : Game) (t : String) :
    (newGameStoredEvents v g t).map (fun e => (e.eventType, e.payload)) =
      newGameSpec g t := by
  by_cases hlive : g.status = GameStatusEnum.LIVE <;>
    by_cases hscore : 0 < g.score.team1Score ∨ 0 < g.score.team2Score <;>
    simp [newGameStoredEvents, newGameSpec, hlive, hscore]

lemma syncAllSports_cycleOf (conflicts : List (String × Nat))
    (sources : List (String × List Game)) (st : SyncState) :
    syncAllSports conflicts st (cycleOf sources) =
      (allFetched sources).foldl
        (fun s p => processGame conflicts s p.1 p.2) st := by
  induction sources generalizing st with
  | nil => rfl
  | cons x xs ih =>
    have hcyc : cycleOf (x :: xs) = ⟨x.1, Except.ok x.2⟩ :: cycleOf xs := rfl
    have hall : allFetched (x :: xs) =
        x.2.map (fun g => (g, x.1)) ++ allFetched xs := by
      simp [allFetched]
    rw [hcyc, hall]
    unfold syncAllSports
    rw [List.foldl_cons, List.foldl_append, List.foldl_map]
    exact ih _

lemma foldPairs_frame (conflicts : List (String × Nat))
    (pairs : List (Game × String)) (st : SyncState) (id : String)
    (hinv : EventLogInv st.events)
    (hid : ∀ p ∈ pairs, p.1.gameId ≠ id) :
    findById ((pairs.foldl
        (fun s p => processGame conflicts s p.1 p.2) st).games) id =
      findById st.games id ∧
    (pairs.foldl (fun s p => processGame conflicts s p.1 p.2)
        st).events.filter (fun x => x.aggregateId = id) =
      st.events.filter (fun x => x.aggregateId = id) := by
  induction pairs generalizing st with
  | nil => exact ⟨rfl, rfl⟩
  | cons p ps ih =>
    rw [List.foldl_cons]
    have hne : id ≠ p.1.gameId :=
      Ne.symm (hid p (List.mem_cons_self p ps))
    have h1 := processGame_findById_frame conflicts st p.1 p.2 id hne hinv
    have h2 := processGame_filter_frame conflicts st p.1 p.2 id hne hinv
    have hinv1 := processGame_inv conflicts st p.1 p.2 hinv
    have hrest := ih (processGame conflicts st p.1 p.2) hinv1
      (fun q hq => hid q (List.mem_cons_of_mem p hq))
    exact ⟨hrest.1.trans h1, hrest.2.trans h2⟩

lemma foldPairs_new (pairs : List (Game × String)) (st : SyncState)
    (hinv : EventLogInv st.events)
    (hnd : (pairs.map (fun p => p.1.gameId)).Nodup)
    (habs : ∀ p ∈ pairs, findById st.games p.1.gameId = none) :
    ∀ p ∈ pairs,
      findById ((pairs.foldl
          (fun s q => processGame [] s q.1 q.2) st).games) p.1.gameId =
        some (gameToDoc p.1) ∧
      (pairs.foldl (fun s q => processGame [] s q.1 q.2)
          st).events.filter (fun x => x.aggregateId = p.1.gameId) =
        st.events.filter (fun x => x.aggregateId = p.1.gameId) ++
          newGameStoredEvents (getCurrentVersion st.events p.1.gameId)
            p.1 p.2 := by
  induction pairs generalizing st with
  | nil =>
    intro p hp
    cases hp
  | cons q ps ih =>
    intro p hp
    rw [List.foldl_cons]
    have hq : findById st.games q.1.gameId = none :=
      habs q (List.mem_cons_self q ps)
    have hnew := processGame_new st q.1 q.2 hq
    have hinv1 : EventLogInv (processGame [] st q.1 q.2).events :=
      processGame_inv [] st q.1 q.2 hinv
    have hnd2 := List.nodup_cons.mp hnd
    rcases List.mem_cons.mp hp with rfl | hpmem
    · have hfr := foldPairs_frame [] ps (processGame [] st p.1 p.2)
        p.1.gameId hinv1 ?_
      · constructor
        · rw [hfr.1, hnew]
          exact findById_repoSave_self st.games p.1
        · rw [hfr.2, hnew]
          show (st.events ++ _).filter _ = _
          rw [List.filter_append]
          congr 1
          apply List.filter_eq_self.mpr
          intro e he
          exact decide_eq_true (mem_newGameStoredEvents_aggregateId he)
      · intro r hr hreq
        have hmem := List.mem_map_of_mem (fun p => p.1.gameId) hr
        simp only [hreq] at hmem
        exact hnd2.1 hmem
    · have hpne : p.1.gameId ≠ q.1.gameId := by
        intro hh
        have hmem := List.mem_map_of_mem (fun p => p.1.gameId) hpmem
        simp only [hh] at hmem
        exact hnd2.1 hmem
      have habs1 : ∀ r ∈ ps,
          findById (processGame [] st q.1 q.2).games r.1.gameId = none := by
        intro r hr
        have hrne : r.1.gameId ≠ q.1.gameId := by
          intro hh
          have hmem := List.mem_map_of_mem (fun p => p.1.gameId) hr
          simp only [hh] at hmem
          exact hnd2.1 hmem
        rw [processGame_findById_frame [] st q.1 q.2 r.1.gameId hrne hinv]
        exact habs r (List.mem_cons_of_mem q hr)
      have hps := ih (processGame [] st q.1 q.2) hinv1 hnd2.2 habs1 p hpmem
      refine ⟨hps.1, ?_⟩
      rw [hps.2, processGame_filter_frame [] st q.1 q.2 p.1.gameId hpne hinv,
        getCurrentVersion_congr p.1.gameId
          (processGame_filter_frame [] st q.1 q.2 p.1.gameId hpne hinv)]

lemma foldPairs_unchanged (conflicts : List (String × Nat))
    (pairs : List (Game × String)) (st : SyncState)
    (h : ∀ p ∈ pairs, findById st.games p.1.gameId = some (gameToDoc p.1)) :
    pairs.foldl (fun s q => processGame conflicts s q.1 q.2) st = st := by
  induction pairs with
  | nil => rfl
  | cons q ps ih =>
    rw [List.foldl_cons,
      processGame_unchanged conflicts st q.1 q.2
        (h q (List.mem_cons_self q ps))]
    exact ih (fun p hp => h p (List.mem_cons_of_mem q hp))

/-- C6: starting from empty stores, a cycle over fetched data with pairwise
distinct entity ids bootstraps each entity (GAME_CREATED plus the
conditional GAME_STARTED / SCORE_UPDATED events and nothing else), and
running the same cycle again with identical fetched data leaves the entire
state unchanged: zero additional events, zero additional append attempts,
and zero snapshot writes. -/
theorem idempotent_unchanged_cycle (sources : List (String × List Game))
    (hnd : ((allFetched sources).map (fun p => p.1.gameId)).Nodup) :
    (∀ p ∈ allFetched sources,
       (getEventsByGameId
           (syncAllSports [] SyncState.empty (cycleOf sources)).events
           p.1.gameId).map (fun e => (e.eventType, e.payload)) =
         newGameSpec p.1 p.2) ∧
    syncAllSports [] (syncAllSports [] SyncState.empty (cycleOf sources))
        (cycleOf sources) =
      syncAllSports [] SyncState.empty (cycleOf sources) := by
  have hfold := syncAllSports_cycleOf [] sources SyncState.empty
  have habs : ∀ p ∈ allFetched sources,
      findById SyncState.empty.games p.1.gameId = none := fun p _ => rfl
  have hmain := foldPairs_new (allFetched sources) SyncState.empty
    eventLogInv_nil hnd habs
  have hinv1 : EventLogInv
      (syncAllSports [] SyncState.empty (cycleOf sources)).events :=
    syncAllSports_inv [] SyncState.empty (cycleOf sources) eventLogInv_nil
  constructor
  · intro p hp
    rw [getEventsByGameId_of_inv hinv1, hfold, (hmain p hp).2]
    show (([] : List StoredEvent) ++
        newGameStoredEvents (getCurrentVersion [] p.1.gameId) p.1
          p.2).map _ = _
    rw [List.nil_append, map_newGameStoredEvents]
  · rw [syncAllSports_cycleOf [] sources
      (syncAllSports [] SyncState.empty (cycleOf sources))]
    apply foldPairs_unchanged
    intro p hp
    rw [hfold]
    exact (hmain p hp).1

theorem idempotent_unchanged_cycle_witness :
    (∀ p ∈ allFetched [("SOCCER", [demoLiveGame]),
        ("TENNIS", [demoSchedGame])],
       (getEventsByGameId
           (syncAllSports [] SyncState.empty
             (cycleOf [("SOCCER", [demoLiveGame]),
               ("TENNIS", [demoSchedGame])])).events
           p.1.gameId).map (fun e => (e.eventType, e.payload)) =
         newGameSpec p.1 p.2) ∧
    syncAllSports []
        (syncAllSports [] SyncState.empty
          (cycleOf [("SOCCER", [demoLiveGame]),
            ("TENNIS", [demoSchedGame])]))
        (cycleOf [("SOCCER", [demoLiveGame]),
          ("TENNIS", [demoSchedGame])]) =
      syncAllSports [] SyncState.empty
        (cycleOf [("SOCCER", [demoLiveGame]),
          ("TENNIS", [demoSchedGame])]) :=
  idempotent_unchanged_cycle
    [("SOCCER", [demoLiveGame]), ("TENNIS", [demoSchedGame])] (by decide)
